import Mathlib

/-!
Shallow embedding of the gamification ledger logic of the
`gamificacao-willow` repository (routers/alunos.py, routers/matriculas.py,
models.py, schemas.py).

Students ("Alunos") carry xp, a level, total points, an academic score and a
badge list; every point-affecting endpoint appends immutable history records
("HistoricoXPPonto").  Python ints are modelled as `Int`, Python floats
(`academic_score`, `points_on_completion`, `valor_pontos_alterado`) as `Rat`,
the JSON-encoded badge column as `List String`, and fallible endpoints as
`Except String`.  Python floor division `//` is `Int.fdiv`.
-/

/-- Row of the `alunos` table (models.py `Aluno`), with the pydantic
defaults of schemas.py (`xp = 0`, `level = 1`, `total_points = 0`,
`badges = []`, `academic_score = 0.0`). -/
structure Aluno where
  id : Nat
  nome : String
  apelido : Option String := none
  guilda_id : Option Nat := none
  xp : Int := 0
  level : Int := 1
  total_points : Int := 0
  badges : List String := []
  academic_score : Rat := 0
  deriving Repr, DecidableEq

/-- Row of the `historico_xp_pontos` table (models.py `HistoricoXPPonto`);
`data_hora` (a DB-side timestamp) and the autoincrement id are omitted. -/
structure HistoricoXPPonto where
  aluno_id : Nat
  tipo_transacao : String
  valor_xp_alterado : Int
  valor_pontos_alterado : Rat
  motivo : String
  referencia_entidade : Option String
  referencia_id : Option Nat
  deriving Repr, DecidableEq

/-- Row of the `atividades` table (models.py `Atividade`). -/
structure Atividade where
  id : Nat
  nome : String
  codigo : String
  xp_on_completion : Int := 0
  points_on_completion : Rat := 0
  deriving Repr, DecidableEq

/-- Row of the `matriculas` table (models.py `Matricula`);
`status` defaults to "iniciado". -/
structure Matricula where
  id : Nat
  aluno_id : Nat
  atividade_id : Nat
  score_in_quest : Int := 0
  status : String := "iniciado"
  deriving Repr, DecidableEq

/-- schemas.py `AlunoUpdate`: every field optional, `none` = field absent
from the request body (pydantic `exclude_unset`). -/
structure AlunoUpdate where
  nome : Option String := none
  apelido : Option String := none
  guilda_id : Option Nat := none
  xp : Option Int := none
  level : Option Int := none
  total_points : Option Int := none
  badges : Option (List String) := none
  academic_score : Option Rat := none
  motivo : Option String := none
  deriving Repr, DecidableEq

/-- The module-level `BADGE_TIERS` dict of routers/alunos.py, as an
association list in insertion order. -/
def BADGE_TIERS : List (Nat × String) :=
  [ (100, "Explorador Iniciante"),
    (200, "Explorador Bronze"),
    (300, "Desbravador Prata"),
    (400, "Garimpeiro Ouro"),
    (500, "Alma de Platina"),
    (600, "Arqueólogo de Jaspe"),
    (700, "Conquistador de Safira"),
    (800, "Conquistador de Esmeralda"),
    (900, "Conquistador de Diamante"),
    (1000, "Mestre das Gemas") ]

/-- `sorted(BADGE_TIERS.items(), key=lambda item: item[0])` inside
`_check_and_award_level_badges`. -/
def sorted_tiers : List (Nat × String) :=
  List.insertionSort (fun p q => p.1 ≤ q.1) BADGE_TIERS

/-- The `for xp_threshold, badge_name in sorted_tiers` loop of
`_check_and_award_level_badges`: append the badge while
`current_xp >= xp_threshold`, `break` at the first tier above it. -/
def expected_badges_loop (current_xp : Int) : List (Nat × String) → List String
  | [] => []
  | (xp_threshold, badge_name) :: rest =>
    if (xp_threshold : Int) ≤ current_xp then
      badge_name :: expected_badges_loop current_xp rest
    else []

/-- Python `set(xs) == set(ys)` on badge-name lists. -/
def set_eq_str (xs ys : List String) : Bool :=
  xs.all (fun x => ys.contains x) && ys.all (fun y => xs.contains y)

/-- `_check_and_award_level_badges` (routers/alunos.py): recompute the
expected level badges from xp and replace the stored list when the two
differ as sets; returns the (possibly updated) student and whether a
change was made. -/
def check_and_award_level_badges (a : Aluno) : Aluno × Bool :=
  let expected_badges := expected_badges_loop a.xp sorted_tiers
  if set_eq_str a.badges expected_badges then (a, false)
  else ({ a with badges := expected_badges }, true)

/-- `_award_badge_if_new` (routers/alunos.py): append the badge if absent. -/
def award_badge_if_new (a : Aluno) (badge_name : String) : Aluno × Bool :=
  if a.badges.contains badge_name then (a, false)
  else ({ a with badges := a.badges ++ [badge_name] }, true)

/-- Naive specification of the badge set: every tier of the whole table
whose threshold is at most the student xp (spec §4 `recompute_badges`). -/
def badges_filter_spec (xp : Int) : List String :=
  (BADGE_TIERS.filter (fun p => (p.1 : Int) ≤ xp)).map Prod.snd

/-- `create_aluno` (POST /alunos): stores the request body as-is (level and
badges included; the schema defaults fill absent fields) and then runs
`_check_and_award_level_badges` once. -/
def create_aluno (aluno : Aluno) : Aluno :=
  (check_and_award_level_badges aluno).1

/-- The `for key, value in aluno.dict(exclude_unset=True).items()` setattr
loop of `update_aluno`: direct replacement of every supplied field (level
included), with no recomputation of anything. -/
def update_aluno_fields (a : Aluno) (u : AlunoUpdate) : Aluno :=
  { a with
    nome := u.nome.getD a.nome,
    apelido := match u.apelido with | some v => some v | none => a.apelido,
    guilda_id := match u.guilda_id with | some v => some v | none => a.guilda_id,
    xp := u.xp.getD a.xp,
    level := u.level.getD a.level,
    total_points := u.total_points.getD a.total_points,
    badges := u.badges.getD a.badges,
    academic_score := u.academic_score.getD a.academic_score }

/-- `update_aluno` (PUT /alunos/\x7baluno_id\x7d): apply every supplied field
by direct replacement, log one history record per point field whose value
actually changed, then recompute level badges when `xp` was among the
supplied fields.  Returns the final student and the history records. -/
def update_aluno (a : Aluno) (u : AlunoUpdate) : Aluno × List HistoricoXPPonto :=
  let old_xp := a.xp
  let old_total_points := a.total_points
  let old_academic_score := a.academic_score
  let a1 : Aluno := update_aluno_fields a u
  let xp_updated := u.xp.isSome
  let motivo_alteracao :=
    u.motivo.getD "Alteração manual via PUT /alunos/\x7baluno_id\x7d"
  let xp_regs : List HistoricoXPPonto :=
    if xp_updated then
      if a1.xp - old_xp ≠ 0 then
        [⟨a.id, "ajuste_manual_xp", a1.xp - old_xp, 0, motivo_alteracao,
          some "aluno", some a.id⟩]
      else []
    else []
  let tp_regs : List HistoricoXPPonto :=
    if u.total_points.isSome then
      if a1.total_points ≠ old_total_points then
        [⟨a.id, "ajuste_manual_pontos_totais", 0,
          ((a1.total_points - old_total_points : Int) : Rat), motivo_alteracao,
          some "aluno", some a.id⟩]
      else []
    else []
  let as_regs : List HistoricoXPPonto :=
    if u.academic_score.isSome then
      if a1.academic_score ≠ old_academic_score then
        [⟨a.id, "ajuste_manual_academic_score", 0,
          a1.academic_score - old_academic_score, motivo_alteracao,
          some "aluno", some a.id⟩]
      else []
    else []
  let a2 := if xp_updated then (check_and_award_level_badges a1).1 else a1
  (a2, xp_regs ++ tp_regs ++ as_regs)

/-- `add_quest_academic_points` (POST /alunos/\x7baluno_id\x7d/add_quest_academic_points):
add the activity points to the academic score and always append one
history record with the granted amount. -/
def add_quest_academic_points (a : Aluno) (atividade : Atividade)
    (motivo : Option String) : Aluno × List HistoricoXPPonto :=
  let pontos_adicionados := atividade.points_on_completion
  let a1 := { a with academic_score := a.academic_score + pontos_adicionados }
  let motivo_registro := motivo.getD
    ("Pontos Acadêmicos por Atividade \x27" ++ atividade.nome ++ "\x27 ("
      ++ atividade.codigo ++ ")")
  (a1,
    [⟨a.id, "ganho_pontos_academicos_manual_atividade", 0, pontos_adicionados,
      motivo_registro, some "atividade", some atividade.id⟩])

/-- `award_badge_to_aluno` (POST /alunos/\x7baluno_id\x7d/award_badge):
grant the badge if new; only then append one zero-delta history record. -/
def award_badge_to_aluno (a : Aluno) (badge_name : String)
    (motivo : Option String) : Aluno × List HistoricoXPPonto :=
  let motivo_registro := motivo.getD
    ("Concessão manual do distintivo \x27" ++ badge_name ++ "\x27")
  let res := award_badge_if_new a badge_name
  if res.2 then
    (res.1,
      [⟨a.id, "concessao_badge_manual", 0, 0, motivo_registro,
        some "badge", none⟩])
  else (res.1, [])

/-- The per-student mutation of the `penalize_guild_xp` loop body:
subtract the deduction, clamp at zero, recompute level. -/
def guild_penalize_student (xp_deduction : Int) (a : Aluno) : Aluno :=
  let xp1 := a.xp - xp_deduction
  let xp2 := if xp1 < 0 then 0 else xp1
  { a with xp := xp2, level := Int.fdiv xp2 100 + 1 }

/-- `penalize_guild_xp` (POST /guilds/\x7bguild_name\x7d/penalize_xp):
reject non-positive deductions, 404 on an empty guild, otherwise apply the
per-student penalty, log one history record per student with the requested
magnitude, then run the badge recomputation pass over every student. -/
def penalize_guild_xp (guilda_id : Nat) (guild_name : String)
    (alunos : List Aluno) (xp_deduction : Int) (motivo : Option String) :
    Except String (List Aluno × List HistoricoXPPonto) :=
  let motivo_penalizacao := motivo.getD
    ("Penalidade de XP para a guilda \x27" ++ guild_name
      ++ "\x27 (motivo não especificado)")
  if xp_deduction ≤ 0 then
    .error "O valor de dedução de XP deve ser um número positivo."
  else if alunos.isEmpty then
    .error ("Nenhum aluno encontrado na guilda \x27" ++ guild_name
      ++ "\x27 para aplicar a penalidade.")
  else
    let penalized := alunos.map (guild_penalize_student xp_deduction)
    let historico_registros := alunos.map (fun aluno =>
      (⟨aluno.id, "penalizacao_xp_guilda", -xp_deduction, 0,
        motivo_penalizacao, some "guilda", some guilda_id⟩ : HistoricoXPPonto))
    let final := penalized.map (fun aluno => (check_and_award_level_badges aluno).1)
    .ok (final, historico_registros)

/-- `penalize_aluno_xp` (POST /alunos/\x7baluno_id\x7d/penalize_xp):
reject non-positive deductions, subtract and clamp at zero, recompute the
level, log one history record with the requested magnitude, then run the
badge recomputation. -/
def penalize_aluno_xp (a : Aluno) (xp_deduction : Int) (motivo : Option String) :
    Except String (Aluno × HistoricoXPPonto) :=
  let motivo_penalizacao := motivo.getD
    "Penalidade de XP manual para o aluno (motivo não especificado)"
  if xp_deduction ≤ 0 then
    .error "O valor de dedução de XP deve ser um número positivo."
  else
    let xp1 := a.xp - xp_deduction
    let xp2 := if xp1 < 0 then 0 else xp1
    let a1 := { a with xp := xp2, level := Int.fdiv xp2 100 + 1 }
    let historico_registro : HistoricoXPPonto :=
      ⟨a.id, "penalizacao_xp_manual", -xp_deduction, 0, motivo_penalizacao,
        some "aluno", some a.id⟩
    let a2 := (check_and_award_level_badges a1).1
    .ok (a2, historico_registro)

/-- `atividade_completa` (PUT /matriculas/\x7bmatricula_id\x7d/complete), on
the path where the student and the activity both exist: mark the enrollment
completed with the given score, add the XP / points / academic gains, set
the level from the new xp, log the xp-and-points record (always) plus the
academic record (only when positive), then recompute badges. -/
def atividade_completa (m : Matricula) (atividade : Atividade) (a : Aluno)
    (score : Int) : Matricula × Aluno × List HistoricoXPPonto :=
  let m1 := { m with status := "concluido", score_in_quest := score }
  let xp_ganho := atividade.xp_on_completion
  let pontos_totais_ganhos := score
  let pontos_academicos_ganhos := atividade.points_on_completion
  let a1 :=
    { a with
      xp := a.xp + xp_ganho,
      total_points := a.total_points + pontos_totais_ganhos,
      academic_score := a.academic_score + pontos_academicos_ganhos,
      level := Int.fdiv (a.xp + xp_ganho) 100 + 1 }
  let historico_xp : HistoricoXPPonto :=
    ⟨a.id, "ganho_xp_atividade", xp_ganho, (pontos_totais_ganhos : Rat),
      "Conclusão da Atividade \x27" ++ atividade.nome ++ "\x27 ("
        ++ atividade.codigo ++ ") com score " ++ toString score,
      some "matricula", some m1.id⟩
  let academicos :=
    if pontos_academicos_ganhos > 0 then
      [(⟨a.id, "ganho_pontos_academicos_atividade", 0, pontos_academicos_ganhos,
        "Pontos Acadêmicos pela Atividade \x27" ++ atividade.nome ++ "\x27 ("
          ++ atividade.codigo ++ ")",
        some "atividade", some atividade.id⟩ : HistoricoXPPonto)]
    else []
  let a2 := (check_and_award_level_badges a1).1
  (m1, a2, historico_xp :: academicos)

/-- `next((m for m in aluno.matriculas if m.atividade_id == ...), None)`
inside `complete_atividade_for_guild`. -/
def find_matricula_atividade (atividade_id : Nat) : List Matricula → Option Matricula
  | [] => none
  | m :: rest =>
    if m.atividade_id = atividade_id then some m
    else find_matricula_atividade atividade_id rest

/-- In-place mutation of the matricula found by `find_matricula_atividade`:
replace the first enrollment of the activity, keep the rest. -/
def update_first_matricula (atividade_id : Nat) (m1 : Matricula) :
    List Matricula → List Matricula
  | [] => []
  | m :: rest =>
    if m.atividade_id = atividade_id then m1 :: rest
    else m :: update_first_matricula atividade_id m1 rest

/-- Per-student outcome of the main loop of `complete_atividade_for_guild`:
the (possibly mutated) student and enrollments, the history records the
student contributed, and what the student appended to
`updated_matriculas_list` (empty when skipped). -/
structure BulkStepResult where
  aluno : Aluno
  matriculas : List Matricula
  historico : List HistoricoXPPonto
  response : List Matricula
  deriving Repr, DecidableEq

/-- Body of the `for aluno in db_alunos_na_guilda` loop of
`complete_atividade_for_guild` (routers/matriculas.py): no enrollment for
the activity → skip entirely; enrollment already "concluido" → append it to
the response untouched; otherwise complete it, add the gains, set the
level, and log the bulk history records. -/
def bulk_complete_step (atividade : Atividade) (guilda_nome : String)
    (score : Int) (a : Aluno) (ms : List Matricula) : BulkStepResult :=
  match find_matricula_atividade atividade.id ms with
  | none => ⟨a, ms, [], []⟩
  | some m =>
    if m.status = "concluido" then ⟨a, ms, [], [m]⟩
    else
      let m1 := { m with status := "concluido", score_in_quest := score }
      let xp_ganho := atividade.xp_on_completion
      let pontos_totais_ganhos := score
      let pontos_academicos_ganhos := atividade.points_on_completion
      let a1 :=
        { a with
          xp := a.xp + xp_ganho,
          total_points := a.total_points + pontos_totais_ganhos,
          academic_score := a.academic_score + pontos_academicos_ganhos,
          level := Int.fdiv (a.xp + xp_ganho) 100 + 1 }
      let historico_xp : HistoricoXPPonto :=
        ⟨a.id, "ganho_xp_atividade_em_massa", xp_ganho,
          (pontos_totais_ganhos : Rat),
          "Conclusão em massa da Atividade \x27" ++ atividade.nome ++ "\x27 ("
            ++ atividade.codigo ++ ") para a guilda \x27" ++ guilda_nome
            ++ "\x27 com score " ++ toString score,
          some "matricula", some m1.id⟩
      let academicos :=
        if pontos_academicos_ganhos > 0 then
          [(⟨a.id, "ganho_pontos_academicos_atividade_em_massa", 0,
            pontos_academicos_ganhos,
            "Pontos Acadêmicos em massa pela Atividade \x27" ++ atividade.nome
              ++ "\x27 (" ++ atividade.codigo ++ ") para a guilda \x27"
              ++ guilda_nome ++ "\x27",
            some "atividade", some atividade.id⟩ : HistoricoXPPonto)]
        else []
      ⟨a1, update_first_matricula atividade.id m1 ms,
        historico_xp :: academicos, [m1]⟩

/-- Per-student composition of both passes of `complete_atividade_for_guild`:
the loop body above, then (only for students that put an enrollment into
`updated_matriculas_list`) the post-commit badge recomputation pass. -/
def bulk_student_final (atividade : Atividade) (guilda_nome : String)
    (score : Int) (p : Aluno × List Matricula) : Aluno × List Matricula :=
  let s := bulk_complete_step atividade guilda_nome score p.1 p.2
  (if s.response.isEmpty then s.aluno else (check_and_award_level_badges s.aluno).1,
    s.matriculas)

/-- `complete_atividade_for_guild` (PUT /matriculas/complete-by-guild):
404 on an empty guild, run the per-student loop, 404 when no student had
an enrollment for the activity, otherwise commit the history records and
run the badge pass over every student that reached the response list.
Returns the final (student, enrollments) pairs, the history records, and
`updated_matriculas_list`. -/
def complete_atividade_for_guild (atividade : Atividade) (guilda_nome : String)
    (score : Int) (alunos : List (Aluno × List Matricula)) :
    Except String (List (Aluno × List Matricula) × List HistoricoXPPonto × List Matricula) :=
  if alunos.isEmpty then
    .error "Nenhum aluno encontrado na guilda."
  else
    let steps := alunos.map (fun p => bulk_complete_step atividade guilda_nome score p.1 p.2)
    let updated_matriculas_list := (steps.map (fun s => s.response)).flatten
    if updated_matriculas_list.isEmpty then
      .error ("Nenhum aluno da guilda possui matrícula para a atividade com ID "
        ++ toString atividade.id ++ " para ser concluída.")
    else
      let historico_registros := (steps.map (fun s => s.historico)).flatten
      let finais := steps.map (fun s =>
        (if s.response.isEmpty then s.aluno else (check_and_award_level_badges s.aluno).1,
          s.matriculas))
      .ok (finais, historico_registros, updated_matriculas_list)

/-- Substring search on character lists (for the SQL `ilike` model). -/
def contains_sublist (needle : List Char) : List Char → Bool
  | [] => needle.isEmpty
  | c :: rest => needle.isPrefixOf (c :: rest) || contains_sublist needle rest

/-- Character-wise lowercasing (for the SQL `ilike` model). -/
def lower_chars (cs : List Char) : List Char := cs.map Char.toLower

/-- SQL `ilike` with wildcards on both sides: case-insensitive substring
match of the query against the student name. -/
def nome_ilike (nome_query : String) (nome : String) : Bool :=
  contains_sublist (lower_chars nome_query.data) (lower_chars nome.data)

/-- `", ".join(matched_names)` (Python str.join). -/
def join_with (sep : String) : List String → String
  | [] => ""
  | [x] => x
  | x :: y :: rest => x ++ sep ++ join_with sep (y :: rest)

/-- The `f"\x7baluno.nome\x7d (ID: \x7baluno.id\x7d)"` candidate format of the
ambiguity error in `get_historico_aluno_xp_pontos`. -/
def candidato_nome_id (a : Aluno) : String :=
  a.nome ++ " (ID: " ++ toString a.id ++ ")"

/-- The 400 detail of `get_historico_aluno_xp_pontos` when several students
match the partial name: enumerates every candidate (name and id). -/
def historico_ambiguidade_detalhe (nome_aluno : String) (candidatos : List Aluno) : String :=
  "Múltiplos alunos encontrados com o nome \x27" ++ nome_aluno
    ++ "\x27. Por favor, use o ID do aluno para consultar o histórico: "
    ++ join_with ", " (candidatos.map candidato_nome_id)

/-- Name-based student resolution of `get_historico_aluno_xp_pontos`
(GET /alunos/historico_xp_pontos with `nome_aluno`): 404 on no match,
400 listing every candidate on more than one match, the single match
otherwise. -/
def get_historico_lookup_por_nome (nome_aluno : String) (alunos : List Aluno) :
    Except String Aluno :=
  match alunos.filter (fun a => nome_ilike nome_aluno a.nome) with
  | [] => .error ("Nenhum aluno encontrado com o nome \x27" ++ nome_aluno ++ "\x27.")
  | [a] => .ok a
  | a :: b :: rest =>
    .error (historico_ambiguidade_detalhe nome_aluno (a :: b :: rest))

/-- Name-based student resolution of `read_matriculas_por_nome_aluno`
(GET /matriculas/aluno/\x7bnome_aluno\x7d): `.first()` on the ilike query —
the first matching row, with no ambiguity check. -/
def read_matriculas_lookup_por_nome (nome_aluno : String) (alunos : List Aluno) :
    Except String Aluno :=
  match alunos.filter (fun a => nome_ilike nome_aluno a.nome) with
  | [] => .error "Aluno não encontrado"
  | a :: _ => .ok a

/-- Modelled from the spec: the repository has no DELETE /matriculas
endpoint under src/ — `revert_enrollment` of spec §4 (delete-with-reversal)
is missing from the source.  Per its words: when the enrollment is
completed, subtract the amounts added at completion (xp and academic score
clamped at zero, total points not clamped per §4 `apply_points_delta`),
log each nonzero subtraction as its own "reversal_*" record, then
recompute badges; otherwise delete with no ledger effect. -/
def revert_enrollment (m : Matricula) (atividade : Atividade) (a : Aluno) :
    Aluno × List HistoricoXPPonto :=
  if m.status = "concluido" then
    let new_xp := max 0 (a.xp - atividade.xp_on_completion)
    let new_total_points := a.total_points - m.score_in_quest
    let new_academic := max 0 (a.academic_score - atividade.points_on_completion)
    let a1 :=
      { a with
        xp := new_xp,
        level := Int.fdiv new_xp 100 + 1,
        total_points := new_total_points,
        academic_score := new_academic }
    let regs : List HistoricoXPPonto :=
      (if atividade.xp_on_completion ≠ 0 then
        [⟨a.id, "reversal_xp", -atividade.xp_on_completion, 0,
          "Reversão da conclusão da matrícula", some "matricula", some m.id⟩]
      else []) ++
      (if m.score_in_quest ≠ 0 then
        [⟨a.id, "reversal_points", 0, ((-m.score_in_quest : Int) : Rat),
          "Reversão da conclusão da matrícula", some "matricula", some m.id⟩]
      else []) ++
      (if atividade.points_on_completion ≠ 0 then
        [⟨a.id, "reversal_academic", 0, -atividade.points_on_completion,
          "Reversão da conclusão da matrícula", some "matricula", some m.id⟩]
      else [])
    ((check_and_award_level_badges a1).1, regs)
  else (a, [])

/-! ### Concrete fixtures for counterexamples and witnesses -/

/-- An activity granting 150 XP and no academic points. -/
def atvQ : Atividade := ⟨2, "Q", "q1", 150, 0⟩

/-- A fresh student who already completed `atvQ` (see `matA`). -/
def alunoA : Aluno := ⟨1, "A", none, none, 0, 1, 0, [], 0⟩

/-- A fresh student with a started enrollment in `atvQ` (see `matB`). -/
def alunoB : Aluno := ⟨2, "B", none, none, 0, 1, 0, [], 0⟩

/-- Student 1 completed the activity earlier with score 7. -/
def matA : Matricula := ⟨5, 1, 2, 7, "concluido"⟩

/-- Student 2 has not completed the activity. -/
def matB : Matricula := ⟨6, 2, 2, 0, "iniciado"⟩

/-- A guild of two students, one of whom already completed the activity. -/
def guild_input : List (Aluno × List Matricula) :=
  [(alunoA, [matA]), (alunoB, [matB])]

/-- The value computed by the bulk completion endpoint on `guild_input`. -/
def bulk_run_example :
    List (Aluno × List Matricula) × List HistoricoXPPonto × List Matricula :=
  (complete_atividade_for_guild atvQ "G" 10 guild_input).toOption.getD ([], [], [])

/-- Two distinct students both matching the partial name "Ana". -/
def alunoAna1 : Aluno := ⟨1, "Ana Silva", none, none, 0, 1, 0, [], 0⟩

/-- Two distinct students both matching the partial name "Ana". -/
def alunoAna2 : Aluno := ⟨2, "Ana Souza", none, none, 0, 1, 0, [], 0⟩

/-! ### Helper lemmas -/

theorem set_eq_str_iff (xs ys : List String) :
    set_eq_str xs ys = true ↔ ∀ s, s ∈ xs ↔ s ∈ ys := by
  simp only [set_eq_str, Bool.and_eq_true, List.all_eq_true, List.elem_iff]
  constructor
  · rintro ⟨h1, h2⟩ s
    exact ⟨fun hx => h1 s hx, fun hy => h2 s hy⟩
  · intro h
    exact ⟨fun s hs => (h s).1 hs, fun s hs => (h s).2 hs⟩

theorem check_preserves_fields (a : Aluno) :
    ((check_and_award_level_badges a).1).id = a.id ∧
    ((check_and_award_level_badges a).1).xp = a.xp ∧
    ((check_and_award_level_badges a).1).level = a.level ∧
    ((check_and_award_level_badges a).1).total_points = a.total_points ∧
    ((check_and_award_level_badges a).1).academic_score = a.academic_score := by
  unfold check_and_award_level_badges
  dsimp only
  split <;> simp

theorem sorted_tiers_eq : sorted_tiers = BADGE_TIERS := by decide

theorem badge_tiers_pairwise :
    BADGE_TIERS.Pairwise (fun p q => p.1 ≤ q.1) := by decide

theorem expected_badges_loop_eq_filter (xp : Int) :
    ∀ (l : List (Nat × String)), l.Pairwise (fun p q => p.1 ≤ q.1) →
      expected_badges_loop xp l
        = (l.filter (fun p => (p.1 : Int) ≤ xp)).map Prod.snd := by
  intro l
  induction l with
  | nil => intro _; rfl
  | cons hd tl ih =>
    intro hp
    rw [List.pairwise_cons] at hp
    rw [expected_badges_loop]
    split
    case isTrue h =>
      rw [List.filter_cons_of_pos (by simpa using h), List.map_cons, ih hp.2]
    case isFalse h =>
      rw [List.filter_cons_of_neg (by simpa using h)]
      have : tl.filter (fun p => (p.1 : Int) ≤ xp) = [] := by
        rw [List.filter_eq_nil_iff]
        intro q hq
        have h1 : hd.1 ≤ q.1 := hp.1 q hq
        simp only [decide_eq_true_eq]
        intro hc
        exact h (le_trans (by exact_mod_cast h1) hc)
      rw [this, List.map_nil]

theorem loop_eq_spec (xp : Int) :
    expected_badges_loop xp sorted_tiers = badges_filter_spec xp := by
  rw [sorted_tiers_eq, badges_filter_spec]
  exact expected_badges_loop_eq_filter xp BADGE_TIERS badge_tiers_pairwise

theorem check_badges_sound (a : Aluno) :
    ∀ s, s ∈ ((check_and_award_level_badges a).1).badges ↔
      s ∈ badges_filter_spec a.xp := by
  intro s
  rw [← loop_eq_spec]
  unfold check_and_award_level_badges
  dsimp only
  split
  case isTrue h => exact (set_eq_str_iff _ _).1 h s
  case isFalse h => simp

theorem check_badges_sound_xp (a : Aluno) :
    ∀ s, s ∈ ((check_and_award_level_badges a).1).badges ↔
      s ∈ badges_filter_spec ((check_and_award_level_badges a).1).xp := by
  intro s
  rw [(check_preserves_fields a).2.1]
  exact check_badges_sound a s

theorem penalize_aluno_xp_ok {a : Aluno} {ded : Int} {motivo : Option String}
    {r : Aluno × HistoricoXPPonto}
    (h : penalize_aluno_xp a ded motivo = .ok r) :
    ¬ ded ≤ 0 ∧
    r.1 = (check_and_award_level_badges
      { a with xp := if a.xp - ded < 0 then 0 else a.xp - ded,
               level := Int.fdiv (if a.xp - ded < 0 then 0 else a.xp - ded) 100 + 1 }).1 ∧
    r.2 = ⟨a.id, "penalizacao_xp_manual", -ded, 0,
      motivo.getD "Penalidade de XP manual para o aluno (motivo não especificado)",
      some "aluno", some a.id⟩ := by
  unfold penalize_aluno_xp at h
  dsimp only at h
  split at h
  · simp at h
  · rw [Except.ok.injEq] at h
    subst h
    exact ⟨by assumption, rfl, rfl⟩

theorem penalize_guild_xp_ok {gid : Nat} {g : String} {alunos : List Aluno}
    {ded : Int} {motivo : Option String}
    {r : List Aluno × List HistoricoXPPonto}
    (h : penalize_guild_xp gid g alunos ded motivo = .ok r) :
    ¬ ded ≤ 0 ∧
    r.1 = alunos.map (fun a =>
      (check_and_award_level_badges (guild_penalize_student ded a)).1) ∧
    r.2 = alunos.map (fun a =>
      (⟨a.id, "penalizacao_xp_guilda", -ded, 0,
        motivo.getD ("Penalidade de XP para a guilda \x27" ++ g
          ++ "\x27 (motivo não especificado)"),
        some "guilda", some gid⟩ : HistoricoXPPonto)) := by
  unfold penalize_guild_xp at h
  dsimp only at h
  split at h
  · simp at h
  · split at h
    · simp at h
    · rw [Except.ok.injEq] at h
      subst h
      refine ⟨by assumption, ?_, rfl⟩
      simp [List.map_map, Function.comp]

theorem atividade_completa_aluno_eq (m : Matricula) (atv : Atividade)
    (a : Aluno) (score : Int) :
    (atividade_completa m atv a score).2.1
      = (check_and_award_level_badges
          { a with xp := a.xp + atv.xp_on_completion,
                   total_points := a.total_points + score,
                   academic_score := a.academic_score + atv.points_on_completion,
                   level := Int.fdiv (a.xp + atv.xp_on_completion) 100 + 1 }).1 := rfl

theorem update_aluno_fst (a : Aluno) (u : AlunoUpdate) :
    (update_aluno a u).1
      = if u.xp.isSome
        then (check_and_award_level_badges (update_aluno_fields a u)).1
        else update_aluno_fields a u := rfl

theorem bulk_step_no_matricula {atv : Atividade} {g : String} {score : Int}
    {a : Aluno} {ms : List Matricula}
    (h : find_matricula_atividade atv.id ms = none) :
    bulk_complete_step atv g score a ms = ⟨a, ms, [], []⟩ := by
  unfold bulk_complete_step
  rw [h]

theorem bulk_step_already_completed {atv : Atividade} {g : String} {score : Int}
    {a : Aluno} {ms : List Matricula} {m : Matricula}
    (h : find_matricula_atividade atv.id ms = some m)
    (hs : m.status = "concluido") :
    bulk_complete_step atv g score a ms = ⟨a, ms, [], [m]⟩ := by
  unfold bulk_complete_step
  rw [h]
  dsimp only
  rw [if_pos hs]

theorem bulk_step_new_aluno {atv : Atividade} {g : String} {score : Int}
    {a : Aluno} {ms : List Matricula} {m : Matricula}
    (h : find_matricula_atividade atv.id ms = some m)
    (hs : ¬ m.status = "concluido") :
    (bulk_complete_step atv g score a ms).aluno
        = { a with xp := a.xp + atv.xp_on_completion,
                   total_points := a.total_points + score,
                   academic_score := a.academic_score + atv.points_on_completion,
                   level := Int.fdiv (a.xp + atv.xp_on_completion) 100 + 1 } ∧
    (bulk_complete_step atv g score a ms).response
        = [{ m with status := "concluido", score_in_quest := score }] ∧
    (bulk_complete_step atv g score a ms).matriculas
        = update_first_matricula atv.id
            { m with status := "concluido", score_in_quest := score } ms ∧
    (bulk_complete_step atv g score a ms).historico.length
        = (if atv.points_on_completion > 0 then 2 else 1) ∧
    ∀ e ∈ (bulk_complete_step atv g score a ms).historico, e.aluno_id = a.id := by
  unfold bulk_complete_step
  rw [h]
  dsimp only
  rw [if_neg hs]
  refine ⟨rfl, rfl, rfl, ?_, ?_⟩
  · dsimp only
    split <;> rfl
  · intro e he
    dsimp only at he
    simp only [List.mem_cons] at he
    rcases he with rfl | he
    · rfl
    · split at he
      · simp only [List.mem_singleton] at he
        rw [he]
      · simp at he

theorem complete_guild_ok {atv : Atividade} {g : String} {score : Int}
    {alunos : List (Aluno × List Matricula)}
    {r : List (Aluno × List Matricula) × List HistoricoXPPonto × List Matricula}
    (h : complete_atividade_for_guild atv g score alunos = .ok r) :
    r.1 = alunos.map (bulk_student_final atv g score) ∧
    r.2.1 = (alunos.map (fun p =>
      (bulk_complete_step atv g score p.1 p.2).historico)).flatten ∧
    r.2.2 = (alunos.map (fun p =>
      (bulk_complete_step atv g score p.1 p.2).response)).flatten := by
  unfold complete_atividade_for_guild at h
  dsimp only at h
  split at h
  · simp at h
  · split at h
    · simp at h
    · rw [Except.ok.injEq] at h
      subst h
      refine ⟨?_, ?_, ?_⟩
      · simp only [List.map_map]
        rfl
      · simp only [List.map_map]
        rfl
      · simp only [List.map_map]
        rfl

theorem join_with_contains_mem (sep : String) :
    ∀ (l : List String), ∀ x ∈ l, x.data <:+: (join_with sep l).data := by
  intro l
  induction l with
  | nil => intro x hx; cases hx
  | cons a rest ih =>
    intro x hx
    cases rest with
    | nil =>
      rw [List.mem_singleton] at hx
      subst hx
      exact ⟨[], [], by simp [join_with]⟩
    | cons b rest2 =>
      rw [List.mem_cons] at hx
      rcases hx with rfl | hx
      · refine ⟨[], (sep ++ join_with sep (b :: rest2)).data, ?_⟩
        rw [join_with]
        simp [String.data_append, List.append_assoc]
      · obtain ⟨s, t, hst⟩ := ih x hx
        refine ⟨(a ++ sep).data ++ s, t, ?_⟩
        rw [join_with]
        rw [show (a ++ sep ++ join_with sep (b :: rest2)).data
            = (a ++ sep).data ++ (join_with sep (b :: rest2)).data
          from String.data_append _ _, ← hst]
        simp [List.append_assoc]

/-! ### Claim theorems -/

/-- C1, counterexample: the manual PUT update is an XP-mutating operation
after which the level does not equal floor(xp/100) + 1 — setting xp to 250
on a fresh student leaves level at 1 instead of 3. -/
theorem level_counterexample :
    ((update_aluno { id := 1, nome := "A" } { xp := some 250 }).1).xp = 250 ∧
    ((update_aluno { id := 1, nome := "A" } { xp := some 250 }).1).level = 1 ∧
    ¬ ((update_aluno { id := 1, nome := "A" } { xp := some 250 }).1).level
        = Int.fdiv ((update_aluno { id := 1, nome := "A" } { xp := some 250 }).1).xp 100 + 1 := by
  decide

/-- C1, amended: after an enrollment completion (single or bulk) and after
a per-student or guild-wide XP penalty, the student level equals
floor(xp/100) + 1; the manual PUT update and creation instead store the
caller-supplied level (defaulting to the old value / schema default)
without recomputing it from xp. -/
theorem level_invariant_amended :
    (∀ (a : Aluno) (ded : Int) (motivo : Option String)
        (r : Aluno × HistoricoXPPonto),
        penalize_aluno_xp a ded motivo = .ok r →
          r.1.level = Int.fdiv r.1.xp 100 + 1) ∧
    (∀ (gid : Nat) (g : String) (alunos : List Aluno) (ded : Int)
        (motivo : Option String) (r : List Aluno × List HistoricoXPPonto),
        penalize_guild_xp gid g alunos ded motivo = .ok r →
          ∀ a' ∈ r.1, a'.level = Int.fdiv a'.xp 100 + 1) ∧
    (∀ (m : Matricula) (atv : Atividade) (a : Aluno) (score : Int),
        ((atividade_completa m atv a score).2.1).level
          = Int.fdiv ((atividade_completa m atv a score).2.1).xp 100 + 1) ∧
    (∀ (atv : Atividade) (g : String) (score : Int) (a : Aluno)
        (ms : List Matricula) (m : Matricula),
        find_matricula_atividade atv.id ms = some m →
        ¬ m.status = "concluido" →
          ((bulk_student_final atv g score (a, ms)).1).level
            = Int.fdiv ((bulk_student_final atv g score (a, ms)).1).xp 100 + 1) ∧
    (∀ (a : Aluno) (u : AlunoUpdate),
        ((update_aluno a u).1).level = u.level.getD a.level) ∧
    (∀ a : Aluno, (create_aluno a).level = a.level ∧ (create_aluno a).xp = a.xp) := by
  refine ⟨?_, ?_, ?_, ?_, ?_, ?_⟩
  · intro a ded motivo r h
    obtain ⟨-, h1, -⟩ := penalize_aluno_xp_ok h
    rw [h1, (check_preserves_fields _).2.2.1, (check_preserves_fields _).2.1]
  · intro gid g alunos ded motivo r h a' ha'
    obtain ⟨-, h1, -⟩ := penalize_guild_xp_ok h
    rw [h1] at ha'
    simp only [List.mem_map] at ha'
    obtain ⟨a, -, rfl⟩ := ha'
    rw [(check_preserves_fields _).2.2.1, (check_preserves_fields _).2.1]
    rfl
  · intro m atv a score
    rw [atividade_completa_aluno_eq,
      (check_preserves_fields _).2.2.1, (check_preserves_fields _).2.1]
  · intro atv g score a ms m h hs
    unfold bulk_student_final
    dsimp only
    rw [(bulk_step_new_aluno h hs).2.1]
    simp only [List.isEmpty_cons, Bool.false_eq_true, if_false]
    rw [(check_preserves_fields _).2.2.1, (check_preserves_fields _).2.1,
      (bulk_step_new_aluno h hs).1]
  · intro a u
    rw [update_aluno_fst]
    cases hx : u.xp with
    | none => simp [update_aluno_fields, hx]
    | some v =>
      simp only [hx, Option.isSome_some, if_true]
      rw [(check_preserves_fields _).2.2.1]
      simp [update_aluno_fields]
  · intro a
    exact ⟨(check_preserves_fields _).2.2.1, (check_preserves_fields _).2.1⟩

theorem level_invariant_amended_witness :
    (2 : Int) = Int.fdiv 100 100 + 1 :=
  level_invariant_amended.1 { id := 1, nome := "A", xp := 120 } 20 none
    ({ id := 1, nome := "A", xp := 100, level := 2,
       badges := ["Explorador Iniciante"] },
      ⟨1, "penalizacao_xp_manual", -20, 0,
        "Penalidade de XP manual para o aluno (motivo não especificado)",
        some "aluno", some 1⟩)
    rfl

/-- C2: the badge recomputation leaves the stored badge list equal, as a
set, to the set of every tier name with threshold at most the student xp;
it replaces the stored list exactly when the two differ under
order-independent set comparison (reporting changed / unchanged, with no
other mutation); and after every operation that changes xp (creation with
initial XP, manual PUT with xp supplied, both penalties, single and bulk
completion) the stored badge set is exactly the expected set. -/
theorem recompute_badges_exact :
    (∀ (a : Aluno) (s : String),
        s ∈ ((check_and_award_level_badges a).1).badges ↔
          s ∈ badges_filter_spec a.xp) ∧
    (∀ a : Aluno, (check_and_award_level_badges a).2 = true ↔
        ¬ ∀ s, s ∈ a.badges ↔ s ∈ badges_filter_spec a.xp) ∧
    (∀ a : Aluno, (check_and_award_level_badges a).2 = false →
        (check_and_award_level_badges a).1 = a) ∧
    (∀ a : Aluno, (check_and_award_level_badges a).2 = true →
        ((check_and_award_level_badges a).1).badges = badges_filter_spec a.xp) ∧
    (∀ (a : Aluno) (ded : Int) (motivo : Option String)
        (r : Aluno × HistoricoXPPonto),
        penalize_aluno_xp a ded motivo = .ok r →
          ∀ s, s ∈ r.1.badges ↔ s ∈ badges_filter_spec r.1.xp) ∧
    (∀ (gid : Nat) (g : String) (alunos : List Aluno) (ded : Int)
        (motivo : Option String) (r : List Aluno × List HistoricoXPPonto),
        penalize_guild_xp gid g alunos ded motivo = .ok r →
          ∀ a' ∈ r.1, ∀ s, s ∈ a'.badges ↔ s ∈ badges_filter_spec a'.xp) ∧
    (∀ (m : Matricula) (atv : Atividade) (a : Aluno) (score : Int) (s : String),
        s ∈ ((atividade_completa m atv a score).2.1).badges ↔
          s ∈ badges_filter_spec ((atividade_completa m atv a score).2.1).xp) ∧
    (∀ (atv : Atividade) (g : String) (score : Int) (a : Aluno)
        (ms : List Matricula),
        (bulk_complete_step atv g score a ms).response ≠ [] →
          ∀ s, s ∈ ((bulk_student_final atv g score (a, ms)).1).badges ↔
            s ∈ badges_filter_spec ((bulk_student_final atv g score (a, ms)).1).xp) ∧
    (∀ (a : Aluno) (u : AlunoUpdate), u.xp.isSome →
        ∀ s, s ∈ ((update_aluno a u).1).badges ↔
          s ∈ badges_filter_spec ((update_aluno a u).1).xp) ∧
    (∀ (a : Aluno) (s : String),
        s ∈ (create_aluno a).badges ↔ s ∈ badges_filter_spec (create_aluno a).xp) := by
  refine ⟨check_badges_sound, ?_, ?_, ?_, ?_, ?_, ?_, ?_, ?_, ?_⟩
  · intro a
    unfold check_and_award_level_badges
    dsimp only
    split
    case isTrue h =>
      simp only [Bool.false_eq_true, false_iff, not_not]
      intro s
      rw [← loop_eq_spec]
      exact (set_eq_str_iff _ _).1 h s
    case isFalse h =>
      simp only [true_iff]
      intro hall
      apply h
      apply (set_eq_str_iff _ _).2
      intro s
      rw [loop_eq_spec]
      exact hall s
  · intro a
    unfold check_and_award_level_badges
    dsimp only
    split
    · intro _; rfl
    · intro hc; cases hc
  · intro a
    unfold check_and_award_level_badges
    dsimp only
    split
    · intro hc; cases hc
    · intro _
      exact loop_eq_spec a.xp
  · intro a ded motivo r h s
    obtain ⟨-, h1, -⟩ := penalize_aluno_xp_ok h
    rw [h1]
    exact check_badges_sound_xp _ s
  · intro gid g alunos ded motivo r h a' ha' s
    obtain ⟨-, h1, -⟩ := penalize_guild_xp_ok h
    rw [h1] at ha'
    simp only [List.mem_map] at ha'
    obtain ⟨a, -, rfl⟩ := ha'
    exact check_badges_sound_xp _ s
  · intro m atv a score s
    rw [atividade_completa_aluno_eq]
    exact check_badges_sound_xp _ s
  · intro atv g score a ms hr s
    unfold bulk_student_final
    dsimp only
    rw [if_neg (by simpa [List.isEmpty_iff] using hr)]
    exact check_badges_sound_xp _ s
  · intro a u hu s
    rw [update_aluno_fst, if_pos hu]
    exact check_badges_sound_xp _ s
  · intro a s
    exact check_badges_sound_xp a s

theorem recompute_badges_exact_witness :
    ("Explorador Iniciante" ∈ ["Explorador Iniciante"] ↔
      "Explorador Iniciante" ∈ badges_filter_spec 100) :=
  recompute_badges_exact.2.2.2.2.1 { id := 1, nome := "A", xp := 120 } 20 none
    ({ id := 1, nome := "A", xp := 100, level := 2,
       badges := ["Explorador Iniciante"] },
      ⟨1, "penalizacao_xp_manual", -20, 0,
        "Penalidade de XP manual para o aluno (motivo não especificado)",
        some "aluno", some 1⟩)
    rfl "Explorador Iniciante"

/-- C3: for every positive deduction, both penalty endpoints leave the
student xp equal to max 0 (previous xp − deduction) — never negative,
however large the deduction. -/
theorem penalty_xp_clamped_at_zero :
    (∀ (a : Aluno) (ded : Int) (motivo : Option String)
        (r : Aluno × HistoricoXPPonto),
        0 < ded → penalize_aluno_xp a ded motivo = .ok r →
          r.1.xp = max 0 (a.xp - ded) ∧ 0 ≤ r.1.xp) ∧
    (∀ (gid : Nat) (g : String) (alunos : List Aluno) (ded : Int)
        (motivo : Option String) (r : List Aluno × List HistoricoXPPonto),
        0 < ded → penalize_guild_xp gid g alunos ded motivo = .ok r →
          r.1 = alunos.map (fun a =>
            (check_and_award_level_badges (guild_penalize_student ded a)).1) ∧
          ∀ a : Aluno,
            ((check_and_award_level_badges (guild_penalize_student ded a)).1).xp
                = max 0 (a.xp - ded) ∧
            0 ≤ ((check_and_award_level_badges (guild_penalize_student ded a)).1).xp) := by
  constructor
  · intro a ded motivo r _ h
    obtain ⟨-, h1, -⟩ := penalize_aluno_xp_ok h
    rw [h1, (check_preserves_fields _).2.1]
    dsimp only
    constructor
    · split <;> omega
    · split <;> omega
  · intro gid g alunos ded motivo r _ h
    obtain ⟨-, h1, -⟩ := penalize_guild_xp_ok h
    refine ⟨h1, ?_⟩
    intro a
    rw [(check_preserves_fields _).2.1]
    unfold guild_penalize_student
    dsimp only
    constructor
    · split <;> omega
    · split <;> omega

theorem penalty_xp_clamped_witness :
    (0 : Int) < 400 ∧ ((0 : Int) = max 0 (250 - 400) ∧ (0 : Int) ≤ 0) :=
  ⟨by decide,
    penalty_xp_clamped_at_zero.1 { id := 1, nome := "A", xp := 250 } 400 none
      ({ id := 1, nome := "A", xp := 0 },
        ⟨1, "penalizacao_xp_manual", -400, 0,
          "Penalidade de XP manual para o aluno (motivo não especificado)",
          some "aluno", some 1⟩)
      (by decide) rfl⟩

/-- C4: deleting a completed enrollment subtracts the amounts added at
completion (xp and academic score clamped at zero, total points exactly),
so completion followed by reversal restores xp, total points and academic
score whenever the pre-completion values were nonnegative (no clamping);
deleting a non-completed enrollment has no effect and logs nothing; a
completed deletion logs one reversal record per nonzero subtraction. -/
theorem completion_revert_round_trip :
    (∀ (m : Matricula) (atv : Atividade) (a : Aluno) (score : Int),
        0 ≤ a.xp → 0 ≤ a.academic_score →
        ((revert_enrollment (atividade_completa m atv a score).1 atv
            (atividade_completa m atv a score).2.1).1).xp = a.xp ∧
        ((revert_enrollment (atividade_completa m atv a score).1 atv
            (atividade_completa m atv a score).2.1).1).total_points = a.total_points ∧
        ((revert_enrollment (atividade_completa m atv a score).1 atv
            (atividade_completa m atv a score).2.1).1).academic_score
          = a.academic_score) ∧
    (∀ (m : Matricula) (atv : Atividade) (a : Aluno),
        ¬ m.status = "concluido" → revert_enrollment m atv a = (a, [])) ∧
    (∀ (m : Matricula) (atv : Atividade) (a : Aluno), m.status = "concluido" →
        ((revert_enrollment m atv a).2).length
          = (if atv.xp_on_completion ≠ 0 then 1 else 0)
            + (if m.score_in_quest ≠ 0 then 1 else 0)
            + (if atv.points_on_completion ≠ 0 then 1 else 0)) := by
  refine ⟨?_, ?_, ?_⟩
  · intro m atv a score h1 h2
    have hxp : (atividade_completa m atv a score).2.1.xp
        = a.xp + atv.xp_on_completion := by
      rw [atividade_completa_aluno_eq, (check_preserves_fields _).2.1]
    have htp : (atividade_completa m atv a score).2.1.total_points
        = a.total_points + score := by
      rw [atividade_completa_aluno_eq, (check_preserves_fields _).2.2.2.1]
    have hac : (atividade_completa m atv a score).2.1.academic_score
        = a.academic_score + atv.points_on_completion := by
      rw [atividade_completa_aluno_eq, (check_preserves_fields _).2.2.2.2]
    unfold revert_enrollment
    rw [if_pos (show (atividade_completa m atv a score).1.status = "concluido"
      from rfl)]
    dsimp only
    rw [(check_preserves_fields _).2.1, (check_preserves_fields _).2.2.2.1,
      (check_preserves_fields _).2.2.2.2]
    dsimp only
    rw [hxp, htp, hac,
      show (atividade_completa m atv a score).1.score_in_quest = score from rfl]
    refine ⟨?_, ?_, ?_⟩
    · rw [add_sub_cancel_right]
      exact max_eq_right h1
    · rw [add_sub_cancel_right]
    · rw [add_sub_cancel_right]
      exact max_eq_right h2
  · intro m atv a h
    unfold revert_enrollment
    rw [if_neg h]
  · intro m atv a h
    unfold revert_enrollment
    rw [if_pos h]
    dsimp only
    rw [List.length_append, List.length_append]
    split_ifs <;> rfl

theorem completion_revert_round_trip_witness :
    (0 : Int) ≤ 20 ∧ (0 : Rat) ≤ 5 ∧
    ((revert_enrollment
        (atividade_completa ⟨5, 1, 2, 0, "iniciado"⟩ ⟨2, "Q", "q1", 150, 2⟩
          ⟨1, "A", none, none, 20, 1, 7, [], 5⟩ 9).1
        ⟨2, "Q", "q1", 150, 2⟩
        (atividade_completa ⟨5, 1, 2, 0, "iniciado"⟩ ⟨2, "Q", "q1", 150, 2⟩
          ⟨1, "A", none, none, 20, 1, 7, [], 5⟩ 9).2.1).1.xp = 20 ∧
      (revert_enrollment
        (atividade_completa ⟨5, 1, 2, 0, "iniciado"⟩ ⟨2, "Q", "q1", 150, 2⟩
          ⟨1, "A", none, none, 20, 1, 7, [], 5⟩ 9).1
        ⟨2, "Q", "q1", 150, 2⟩
        (atividade_completa ⟨5, 1, 2, 0, "iniciado"⟩ ⟨2, "Q", "q1", 150, 2⟩
          ⟨1, "A", none, none, 20, 1, 7, [], 5⟩ 9).2.1).1.total_points = 7 ∧
      (revert_enrollment
        (atividade_completa ⟨5, 1, 2, 0, "iniciado"⟩ ⟨2, "Q", "q1", 150, 2⟩
          ⟨1, "A", none, none, 20, 1, 7, [], 5⟩ 9).1
        ⟨2, "Q", "q1", 150, 2⟩
        (atividade_completa ⟨5, 1, 2, 0, "iniciado"⟩ ⟨2, "Q", "q1", 150, 2⟩
          ⟨1, "A", none, none, 20, 1, 7, [], 5⟩ 9).2.1).1.academic_score = 5) :=
  ⟨by decide, by norm_num,
    completion_revert_round_trip.1 ⟨5, 1, 2, 0, "iniciado"⟩ ⟨2, "Q", "q1", 150, 2⟩
      ⟨1, "A", none, none, 20, 1, 7, [], 5⟩ 9 (by decide) (by norm_num)⟩

/-- C5: both penalty endpoints record valor_xp_alterado = −xp_deduction,
the requested magnitude, in every appended history record — even when
clamping at zero made the actual change smaller (the witness penalizes a
student holding 50 XP by 80). -/
theorem penalty_history_logs_requested_magnitude :
    (∀ (a : Aluno) (ded : Int) (motivo : Option String)
        (r : Aluno × HistoricoXPPonto),
        penalize_aluno_xp a ded motivo = .ok r →
          r.2.valor_xp_alterado = -ded) ∧
    (∀ (gid : Nat) (g : String) (alunos : List Aluno) (ded : Int)
        (motivo : Option String) (r : List Aluno × List HistoricoXPPonto),
        penalize_guild_xp gid g alunos ded motivo = .ok r →
          ∀ e ∈ r.2, e.valor_xp_alterado = -ded) := by
  constructor
  · intro a ded motivo r h
    obtain ⟨-, -, h2⟩ := penalize_aluno_xp_ok h
    rw [h2]
  · intro gid g alunos ded motivo r h e he
    obtain ⟨-, -, h2⟩ := penalize_guild_xp_ok h
    rw [h2] at he
    simp only [List.mem_map] at he
    obtain ⟨a, -, rfl⟩ := he
    rfl

theorem penalty_history_witness :
    (⟨1, "penalizacao_xp_manual", -80, 0,
      "Penalidade de XP manual para o aluno (motivo não especificado)",
      some "aluno", some 1⟩ : HistoricoXPPonto).valor_xp_alterado = -80 :=
  penalty_history_logs_requested_magnitude.1 { id := 1, nome := "A", xp := 50 } 80 none
    ({ id := 1, nome := "A", xp := 0 },
      ⟨1, "penalizacao_xp_manual", -80, 0,
        "Penalidade de XP manual para o aluno (motivo não especificado)",
        some "aluno", some 1⟩)
    rfl

/-- C6, counterexample: add_quest_academic_points with an activity whose
points_on_completion is 0 changes nothing yet still appends one history
record with a zero delta — refuting the claim that a zero grant produces
no Ledger Entry. -/
theorem zero_grant_still_logged :
    ((add_quest_academic_points { id := 1, nome := "A" }
        { id := 2, nome := "Q", codigo := "q1" } none).1).academic_score
        = ({ id := 1, nome := "A" } : Aluno).academic_score ∧
    ((add_quest_academic_points { id := 1, nome := "A" }
        { id := 2, nome := "Q", codigo := "q1" } none).2).length = 1 ∧
    ∀ e ∈ (add_quest_academic_points { id := 1, nome := "A" }
        { id := 2, nome := "Q", codigo := "q1" } none).2,
      e.valor_pontos_alterado = 0 := by
  unfold add_quest_academic_points
  dsimp only
  refine ⟨by norm_num, rfl, ?_⟩
  intro e he
  rw [List.mem_singleton] at he
  rw [he]

/-- C6, amended: in the manual PUT update, each of xp, total points and
academic score yields exactly one history record when the supplied value
differs from the old one and none otherwise (and no other records are
produced); add_quest_academic_points, however, always appends exactly one
record carrying the granted amount, zero included. -/
theorem ledger_entry_per_nonzero_change :
    (∀ (a : Aluno) (u : AlunoUpdate),
      (((update_aluno a u).2).filter
          (fun e => e.tipo_transacao == "ajuste_manual_xp")).length
        = (if u.xp.isSome ∧ u.xp.getD a.xp ≠ a.xp then 1 else 0) ∧
      (((update_aluno a u).2).filter
          (fun e => e.tipo_transacao == "ajuste_manual_pontos_totais")).length
        = (if u.total_points.isSome ∧
              u.total_points.getD a.total_points ≠ a.total_points then 1 else 0) ∧
      (((update_aluno a u).2).filter
          (fun e => e.tipo_transacao == "ajuste_manual_academic_score")).length
        = (if u.academic_score.isSome ∧
              u.academic_score.getD a.academic_score ≠ a.academic_score then 1 else 0) ∧
      ((update_aluno a u).2).length
        = (if u.xp.isSome ∧ u.xp.getD a.xp ≠ a.xp then 1 else 0)
          + (if u.total_points.isSome ∧
              u.total_points.getD a.total_points ≠ a.total_points then 1 else 0)
          + (if u.academic_score.isSome ∧
              u.academic_score.getD a.academic_score ≠ a.academic_score then 1 else 0)) ∧
    (∀ (a : Aluno) (atividade : Atividade) (motivo : Option String),
      ((add_quest_academic_points a atividade motivo).2).length = 1 ∧
      ∀ e ∈ (add_quest_academic_points a atividade motivo).2,
        e.valor_pontos_alterado = atividade.points_on_completion) := by
  constructor
  · intro a u
    unfold update_aluno update_aluno_fields
    dsimp only
    rcases hx : u.xp with _ | xv <;>
      rcases ht : u.total_points with _ | tv <;>
        rcases ha : u.academic_score with _ | av <;>
          simp [sub_ne_zero, List.filter_append] <;>
            split_ifs <;> simp_all
  · intro a atividade motivo
    refine ⟨rfl, ?_⟩
    intro e he
    unfold add_quest_academic_points at he
    rw [List.mem_singleton] at he
    rw [he]

theorem ledger_entry_witness :
    (((update_aluno ⟨1, "A", none, none, 0, 1, 50, [], 0⟩
        { total_points := some 50 }).2).filter
        (fun e => e.tipo_transacao == "ajuste_manual_xp")).length = 0 ∧
    (((update_aluno ⟨1, "A", none, none, 0, 1, 50, [], 0⟩
        { total_points := some 50 }).2).filter
        (fun e => e.tipo_transacao == "ajuste_manual_pontos_totais")).length = 0 ∧
    (((update_aluno ⟨1, "A", none, none, 0, 1, 50, [], 0⟩
        { total_points := some 50 }).2).filter
        (fun e => e.tipo_transacao == "ajuste_manual_academic_score")).length = 0 ∧
    ((update_aluno ⟨1, "A", none, none, 0, 1, 50, [], 0⟩
        { total_points := some 50 }).2).length = 0 :=
  ledger_entry_per_nonzero_change.1 ⟨1, "A", none, none, 0, 1, 50, [], 0⟩
    { total_points := some 50 }

/-- C7, counterexample: bulk-completing an activity for a guild where one
of two students already completed it returns both enrollments in
updated_matriculas_list — the already-completed, unaffected enrollment
included — while only the other student is mutated and logged. -/
theorem bulk_response_includes_completed :
    complete_atividade_for_guild atvQ "G" 10 guild_input = .ok bulk_run_example ∧
    matA ∈ bulk_run_example.2.2 ∧
    bulk_run_example.2.2.length = 2 ∧
    (∀ e ∈ bulk_run_example.2.1, ¬ e.aluno_id = 1) ∧
    bulk_run_example.1.map (fun p => p.1.xp) = [0, 150] :=
  ⟨rfl, by decide, by decide, by decide, by decide⟩

/-- C7, amended: the bulk completion decomposes per student of the guild:
a student with no enrollment in the activity is skipped entirely (no
mutation, no record, nothing returned); a student whose enrollment is
already completed gets no field change and no history record but their
enrollment is included in the returned list and their badges are still
recomputed; a student with a non-completed enrollment receives the full
completion sequence (status, score, xp/points/academic gains, level,
history records, badge recomputation). -/
theorem bulk_complete_characterization :
    (∀ (atv : Atividade) (g : String) (score : Int)
        (alunos : List (Aluno × List Matricula))
        (r : List (Aluno × List Matricula) × List HistoricoXPPonto × List Matricula),
        complete_atividade_for_guild atv g score alunos = .ok r →
          r.1 = alunos.map (bulk_student_final atv g score) ∧
          r.2.1 = (alunos.map (fun p =>
            (bulk_complete_step atv g score p.1 p.2).historico)).flatten ∧
          r.2.2 = (alunos.map (fun p =>
            (bulk_complete_step atv g score p.1 p.2).response)).flatten) ∧
    (∀ (atv : Atividade) (g : String) (score : Int) (a : Aluno)
        (ms : List Matricula),
        find_matricula_atividade atv.id ms = none →
          bulk_complete_step atv g score a ms = ⟨a, ms, [], []⟩ ∧
          bulk_student_final atv g score (a, ms) = (a, ms)) ∧
    (∀ (atv : Atividade) (g : String) (score : Int) (a : Aluno)
        (ms : List Matricula) (m : Matricula),
        find_matricula_atividade atv.id ms = some m →
        m.status = "concluido" →
          bulk_complete_step atv g score a ms = ⟨a, ms, [], [m]⟩ ∧
          bulk_student_final atv g score (a, ms)
            = ((check_and_award_level_badges a).1, ms)) ∧
    (∀ (atv : Atividade) (g : String) (score : Int) (a : Aluno)
        (ms : List Matricula) (m : Matricula),
        find_matricula_atividade atv.id ms = some m →
        ¬ m.status = "concluido" →
          (bulk_complete_step atv g score a ms).aluno
              = { a with xp := a.xp + atv.xp_on_completion,
                         total_points := a.total_points + score,
                         academic_score := a.academic_score + atv.points_on_completion,
                         level := Int.fdiv (a.xp + atv.xp_on_completion) 100 + 1 } ∧
          (bulk_complete_step atv g score a ms).response
              = [{ m with status := "concluido", score_in_quest := score }] ∧
          (bulk_complete_step atv g score a ms).matriculas
              = update_first_matricula atv.id
                  { m with status := "concluido", score_in_quest := score } ms ∧
          (bulk_complete_step atv g score a ms).historico.length
              = (if atv.points_on_completion > 0 then 2 else 1) ∧
          ∀ e ∈ (bulk_complete_step atv g score a ms).historico,
            e.aluno_id = a.id) := by
  refine ⟨?_, ?_, ?_, ?_⟩
  · intro atv g score alunos r h
    exact complete_guild_ok h
  · intro atv g score a ms h
    refine ⟨bulk_step_no_matricula h, ?_⟩
    unfold bulk_student_final
    rw [bulk_step_no_matricula h]
    rfl
  · intro atv g score a ms m h hs
    refine ⟨bulk_step_already_completed h hs, ?_⟩
    unfold bulk_student_final
    rw [bulk_step_already_completed h hs]
    rfl
  · intro atv g score a ms m h hs
    exact bulk_step_new_aluno h hs

theorem bulk_complete_characterization_witness :
    ([(alunoA, [matA])] : List (Aluno × List Matricula))
        = [(alunoA, [matA])].map (bulk_student_final atvQ "G" 10) ∧
    ([] : List HistoricoXPPonto)
        = ([(alunoA, [matA])].map (fun p =>
            (bulk_complete_step atvQ "G" 10 p.1 p.2).historico)).flatten ∧
    ([matA] : List Matricula)
        = ([(alunoA, [matA])].map (fun p =>
            (bulk_complete_step atvQ "G" 10 p.1 p.2).response)).flatten :=
  bulk_complete_characterization.1 atvQ "G" 10 [(alunoA, [matA])]
    ([(alunoA, [matA])], [], [matA]) rfl

/-- C8, counterexample: the enrollment lookup by partial student name
resolves an ambiguous name by silently picking the first matching student
instead of failing with an ambiguous-reference error. -/
theorem matriculas_lookup_no_ambiguity_check :
    read_matriculas_lookup_por_nome "Ana" [alunoAna1, alunoAna2] = .ok alunoAna1 ∧
    nome_ilike "Ana" alunoAna1.nome = true ∧
    nome_ilike "Ana" alunoAna2.nome = true ∧
    ¬ alunoAna1 = alunoAna2 :=
  ⟨rfl, by decide, by decide, by decide⟩

/-- C8, amended: the history lookup by partial student name fails on an
ambiguous match with an error that enumerates every conflicting
candidate, each rendered as its name and id; the enrollment lookup (see
the counterexample) instead picks the first match. -/
theorem ambiguous_lookup_enumerates_candidates :
    ∀ (nome : String) (alunos : List Aluno),
      1 < (alunos.filter (fun a => nome_ilike nome a.nome)).length →
        get_historico_lookup_por_nome nome alunos
          = .error (historico_ambiguidade_detalhe nome
              (alunos.filter (fun a => nome_ilike nome a.nome))) ∧
        ∀ a ∈ alunos.filter (fun a => nome_ilike nome a.nome),
          (candidato_nome_id a).data
            <:+: (historico_ambiguidade_detalhe nome
                (alunos.filter (fun a => nome_ilike nome a.nome))).data := by
  intro nome alunos hlen
  rcases hm : alunos.filter (fun a => nome_ilike nome a.nome) with
    _ | ⟨a0, _ | ⟨b0, rest⟩⟩
  · rw [hm] at hlen
    simp at hlen
  · rw [hm] at hlen
    simp at hlen
  · constructor
    · unfold get_historico_lookup_por_nome
      rw [hm]
    · intro a ha
      unfold historico_ambiguidade_detalhe
      have h1 : (candidato_nome_id a).data
          <:+: (join_with ", " ((a0 :: b0 :: rest).map candidato_nome_id)).data := by
        refine join_with_contains_mem ", " _ _ ?_
        rw [hm] at ha
        exact List.mem_map_of_mem candidato_nome_id ha
      rw [hm]
      obtain ⟨s, t, hst⟩ := h1
      refine ⟨("Múltiplos alunos encontrados com o nome \x27" ++ nome
        ++ "\x27. Por favor, use o ID do aluno para consultar o histórico: ").data
          ++ s, t, ?_⟩
      rw [show (("Múltiplos alunos encontrados com o nome \x27" ++ nome
          ++ "\x27. Por favor, use o ID do aluno para consultar o histórico: ")
            ++ join_with ", " ((a0 :: b0 :: rest).map candidato_nome_id)).data
          = ("Múltiplos alunos encontrados com o nome \x27" ++ nome
          ++ "\x27. Por favor, use o ID do aluno para consultar o histórico: ").data
            ++ (join_with ", " ((a0 :: b0 :: rest).map candidato_nome_id)).data
        from String.data_append _ _, ← hst]
      simp [List.append_assoc]

theorem ambiguous_lookup_witness :
    get_historico_lookup_por_nome "Ana" [alunoAna1, alunoAna2]
        = .error (historico_ambiguidade_detalhe "Ana"
            ([alunoAna1, alunoAna2].filter (fun a => nome_ilike "Ana" a.nome))) ∧
    (candidato_nome_id alunoAna1).data
        <:+: (historico_ambiguidade_detalhe "Ana"
            ([alunoAna1, alunoAna2].filter (fun a => nome_ilike "Ana" a.nome))).data :=
  ⟨(ambiguous_lookup_enumerates_candidates "Ana" [alunoAna1, alunoAna2]
      (by decide)).1,
    (ambiguous_lookup_enumerates_candidates "Ana" [alunoAna1, alunoAna2]
      (by decide)).2 alunoAna1 (by decide)⟩

/-- C9: for every xp value, the badge loop over the ascending-sorted tier
table that stops at the first threshold above xp computes exactly the
same badge list as the naive filter of the entire tier table for
thresholds at most xp — the early break loses no qualifying tier. -/
theorem badge_loop_refines_filter (xp : Int) :
    expected_badges_loop xp sorted_tiers = badges_filter_spec xp :=
  loop_eq_spec xp

/-- C10: manually awarding a badge the student already holds changes
nothing — same student record, no history — while awarding a new badge
appends exactly that name to the badge list and logs exactly one history
record with zero XP and points deltas. -/
theorem award_badge_idempotent :
    (∀ (a : Aluno) (b : String) (motivo : Option String),
        a.badges.contains b = true →
          award_badge_to_aluno a b motivo = (a, [])) ∧
    (∀ (a : Aluno) (b : String) (motivo : Option String),
        a.badges.contains b = false →
          (award_badge_to_aluno a b motivo).1
              = { a with badges := a.badges ++ [b] } ∧
          (award_badge_to_aluno a b motivo).2.length = 1 ∧
          ∀ e ∈ (award_badge_to_aluno a b motivo).2,
            e.valor_xp_alterado = 0 ∧ e.valor_pontos_alterado = 0) := by
  constructor
  · intro a b motivo h
    unfold award_badge_to_aluno award_badge_if_new
    dsimp only
    rw [h]
    rfl
  · intro a b motivo h
    unfold award_badge_to_aluno award_badge_if_new
    simp only [h, Bool.false_eq_true, if_false, if_true, List.mem_singleton]
    refine ⟨trivial, rfl, ?_⟩
    intro e he
    rw [he]
    exact ⟨rfl, rfl⟩

theorem award_badge_idempotent_witness :
    award_badge_to_aluno
        { id := 1, nome := "A", badges := ["Medalha"] } "Medalha" none
      = ({ id := 1, nome := "A", badges := ["Medalha"] }, []) :=
  award_badge_idempotent.1 { id := 1, nome := "A", badges := ["Medalha"] }
    "Medalha" none (by decide)
